import Mathlib

/-!
Verification of the narrative-consistency checker (retrieval + judgment core).

This file shallowly embeds the Python sources `src/judge.py`,
`src/semantic_analyzer.py`, `src/retrieve.py` and the search layer of
`src/embeddings.py` into Lean and proves/refutes the frozen claims about them.

Conventions of the embedding:
* Python floats are modelled as rationals (`ℚ`); all constants in the sources
  are decimal literals, so this is exact.
* Python strings are Lean `String`s; `x in y` (substring test) is `pyIn x y`,
  `str.lower()` is `lowerStr`, `str.split()` is `pySplitWS`, `str.strip()` is
  `stripStr`, `" ".join(l)` is `joinSp`.
* Python `set(...)` values are modelled as deduplicated lists (`List.dedup`);
  only membership and cardinality of such sets are ever consumed, so the
  (arbitrary) iteration order of a Python set is immaterial here.
* The external embedding model / vector index of `embeddings.py` is out of
  scope per the spec; it enters as an oracle parameter
  `sim : String → RChunk → ℚ` giving the similarity of a query to a chunk.
* In-place mutation of evidence dicts (annotation keys added by
  `enhance_evidence_with_semantic_analysis`) is modelled by returning the
  post-call state of the caller's list.
* Python exceptions (`max()` on an empty sequence, division by zero) are
  modelled with `Except String`.
-/

/-! ### String primitives mirroring Python's str operations -/

/-- The apostrophe character (used by the source in negation/causal vocabularies). -/
def apos : Char := Char.ofNat 39

/-- Python `needle in hay` for strings: substring containment. -/
def pyIn (needle hay : String) : Bool := decide (needle.data <:+: hay.data)

/-- Python `str.lower()` (ASCII; all inputs here are ASCII). -/
def lowerStr (s : String) : String := String.mk (s.data.map Char.toLower)

/-- Whitespace recognised by Python `str.split()` / `str.strip()` on the
inputs occurring here. -/
def isWS (c : Char) : Bool := c = ' ' || c = '\t' || c = '\n' || c = '\r'

/-- Split a character list at every character satisfying `p` (separators are
dropped; empty fragments are kept, as with `re.split` on a single class). -/
def splitChars (p : Char → Bool) : List Char → List (List Char)
  | [] => [[]]
  | c :: cs =>
    let r := splitChars p cs
    if p c then [] :: r
    else
      match r with
      | [] => [[c]]
      | w :: ws => (c :: w) :: ws

/-- Python `str.split()` with no separator: split on whitespace runs and drop
empty fragments. -/
def pySplitWS (s : String) : List String :=
  ((splitChars isWS s.data).map String.mk).filter (fun w => w ≠ "")

/-- Python `str.strip()`. -/
def stripStr (s : String) : String :=
  String.mk (((s.data.dropWhile (isWS ·)).reverse.dropWhile (isWS ·)).reverse)

/-- A regex `\w` character: alphanumeric or underscore (ASCII inputs). -/
def isWordChar (c : Char) : Bool := c.isAlphanum || c = '_'

/-- Python `re.sub(r'[^\w]', '', word)`: drop all non-word characters. -/
def cleanWord (s : String) : String := String.mk (s.data.filter isWordChar)

/-- Spine of `" ".join(l)`. -/
def joinSpData : List (List Char) → List Char
  | [] => []
  | [x] => x
  | x :: xs => x ++ ' ' :: joinSpData xs

/-- Python `" ".join(l)`. -/
def joinSp (l : List String) : String := String.mk (joinSpData (l.map String.data))

/-- The word set `set(w.lower() for w in s.split() if len(w) > 3)` used all
over the judge: lower-cased tokens longer than 3 characters, as a
deduplicated list. -/
def wordsGt3 (s : String) : List String :=
  (((pySplitWS s).filter (fun w => 3 < w.length)).map lowerStr).dedup

/-- `len(setA & setB)` where `a` is already deduplicated. -/
def interCount (a b : List String) : ℕ := (a.filter (fun w => decide (w ∈ b))).length

/-- Python `max` over a list of rationals (`max()` raises on `[]`; every use
in the sources is guarded by a non-emptiness check, so the `[]` value here is
irrelevant). -/
def pyMax (l : List ℚ) : ℚ :=
  match l with
  | [] => 0
  | x :: xs => xs.foldl max x

/-- Python `max` over a list of naturals, as an `Option` so that the
`max()`-raises-on-empty behaviour can be surfaced where it matters. -/
def pyMaxNat (l : List ℕ) : Option ℕ :=
  match l with
  | [] => none
  | x :: xs => some (xs.foldl max x)

/-- First 100 characters, Python `s[:100]`. -/
def take100 (s : String) : String := String.mk (s.data.take 100)

/-! ### Evidence chunks as seen by the judge

`judge.py`'s heuristic path reads exactly two keys of each evidence dict:
`'text'` and `'similarity'`.  `Ev` is that view; `EChunk` additionally carries
the three annotation keys written in place by
`enhance_evidence_with_semantic_analysis`, so that mutation of the caller's
list is observable in the model. -/

/-- The (text, similarity) view of an evidence dict. -/
structure Ev where
  text : String
  similarity : ℚ
deriving Repr, DecidableEq

/-- An evidence dict: the two keys the judge reads plus the three annotation
keys that `enhance_evidence_with_semantic_analysis` writes in place
(`none` = key absent). -/
structure EChunk where
  text : String
  similarity : ℚ
  semantic_support_score : Option ℚ := none
  has_contradictions : Option Bool := none
  causal_consistency : Option ℚ := none
deriving Repr, DecidableEq

/-- Projection of an evidence dict to the keys the judge reads. -/
def evView (c : EChunk) : Ev := ⟨c.text, c.similarity⟩

/-- `ConsistencyJudge.judge_consistency` returns a `(prediction, rationale,
confidence)` triple. -/
abbrev Judgment := ℕ × String × ℚ

/-! ### judge.py: vocabularies -/

/-- `"couldn't"` (built without a literal apostrophe). -/
def couldnt : String := "couldn" ++ String.mk [apos] ++ "t"

/-- `_judge_with_heuristics`, negation vocabulary. -/
def negation_words : List String :=
  ["not", "never", "no", "none", "nobody", "nothing", "impossible", "cannot", couldnt]

/-- `_check_antonyms`, antonym pairs. -/
def judge_antonym_pairs : List (String × String) :=
  [("wealthy", "poverty"), ("rich", "poor"), ("wealth", "poor"),
   ("aristocrat", "peasant"), ("noble", "commoner"),
   ("loved", "hated"), ("always", "never"),
   ("brave", "cowardly"), ("strong", "weak"),
   ("dead", "alive"), ("died", "survived")]

/-! ### judge.py: `_check_antonyms` and the base heuristic policy -/

/-- `ConsistencyJudge._check_antonyms`: true iff one member of an antonym
pair occurs in the lowered backstory and the opposite member in the lowered
evidence text. -/
def check_antonyms (backstory evidence_text : String) : Bool :=
  let b := lowerStr backstory
  let e := lowerStr evidence_text
  judge_antonym_pairs.any fun p =>
    (pyIn p.1 b && pyIn p.2 e) || (pyIn p.2 b && pyIn p.1 e)

/-- Average of the `'similarity'` values (callers guard non-emptiness). -/
def avg_similarity (ev : List Ev) : ℚ := (ev.map Ev.similarity).sum / ev.length

/-- Combined evidence text `" ".join(chunk['text'] for chunk in evidence)`. -/
def combined_text (ev : List Ev) : String := joinSp (ev.map Ev.text)

/-- Fraction of chunks with similarity above 0.65
(`evidence_quality_ratio` in the source). -/
def qualityFrac (ev : List Ev) : ℚ :=
  ((ev.filter (fun c => decide (0.65 < c.similarity))).length : ℚ) / ev.length

/-- Number of chunks with similarity above 0.75 (`very_high_quality`). -/
def veryHighCount (ev : List Ev) : ℕ :=
  (ev.filter (fun c => decide (0.75 < c.similarity))).length

/-- A chunk text contains some negation word (substring test, as in the
source's `any(word in text_lower for word in negation_words)`). -/
def hasNegation (text : String) : Bool :=
  negation_words.any fun w => pyIn w (lowerStr text)

/-- Negation combined with topical overlap: at least two shared significant
words between backstory and chunk plus a negation word in the chunk. -/
def negOverlapHit (backstory text : String) : Bool :=
  2 ≤ interCount (wordsGt3 backstory) (wordsGt3 text) && hasNegation text

/-- `strong_contradictions` of `_judge_with_heuristics`: among the first five
chunks, similarity above 0.80 with a negation-plus-overlap hit. -/
def strongContr (backstory : String) (ev : List Ev) : ℕ :=
  ((ev.take 5).filter
    (fun c => decide (0.80 < c.similarity) && negOverlapHit backstory c.text)).length

/-- `weak_contradictions`: among the first five chunks, similarity in
(0.70, 0.80] with a negation-plus-overlap hit. -/
def weakContr (backstory : String) (ev : List Ev) : ℕ :=
  ((ev.take 5).filter
    (fun c => decide (0.70 < c.similarity) && !decide (0.80 < c.similarity)
      && negOverlapHit backstory c.text)).length

/-- `token_overlap`: shared significant words over backstory significant
words (denominator floored at 1). -/
def token_overlap (backstory combined : String) : ℚ :=
  let bt := wordsGt3 backstory
  let et := wordsGt3 combined
  (interCount bt et : ℚ) / (max bt.length 1 : ℚ)

/-- The decision chain of `ConsistencyJudge._judge_with_heuristics` as a
function of its evidence statistics: `hasAnt` is the `_check_antonyms` result
on the combined evidence text, `avg`/`mx` the mean/maximum similarity, `eqf`
the fraction of chunks above 0.65 similarity, `tok` the token overlap,
`veryHigh`/`strong`/`weak` the chunk counts of the source. -/
def judgeBaseCore (hasAnt : Bool) (avg mx eqf tok : ℚ)
    (veryHigh strong weak : ℕ) : Judgment :=
  if hasAnt then
      (0, "Backstory contradicts evidence (antonyms found)",
        min 0.95 (0.85 + eqf * 0.10))
    else if 1 ≤ strong then
      (0, "Evidence contains direct negations of backstory claims",
        min 0.95 (0.90 + eqf * 0.05))
    else if avg < 0.35 then
      (0, "Backstory claims are not supported by the narrative",
        min 0.88 (0.80 + tok * 0.10))
    else if 0.70 < avg ∧ 0.65 < eqf ∧ weak = 0 ∧ 2 ≤ veryHigh then
      (1, "Backstory is well-supported by narrative evidence",
        min 0.95 (0.90 + min 0.05 ((mx - 0.70) * 0.2) + eqf * 0.05))
    else if 0.65 < avg ∧ 0.55 < eqf ∧ weak ≤ 1 then
      (1, "Backstory is plausible and supported by narrative evidence",
        min 0.95 (0.88 + eqf * 0.07))
    else if 0.60 < avg ∧ 0.50 < eqf ∧ weak = 0 then
      (1, "Backstory shows reasonable consistency with evidence",
        min 0.94 (0.86 + tok * 0.08))
    else if 0.55 < avg ∧ weak = 0 then
      (1, "Backstory shows some consistency with evidence",
        min 0.92 (0.84 + tok * 0.10))
    else if 0.50 < avg ∧ weak ≤ 1 then
      (if 0.35 < tok then 1 else 0,
        "Backstory has marginal consistency with evidence", 0.80 + tok * 0.08)
    else if 0.45 < avg then
      (0, "Insufficient evidence to confirm backstory", 0.80 + tok * 0.10)
    else
      (0, "Backstory is not supported by available evidence", 0.78 + avg * 0.15)

/-- `ConsistencyJudge._judge_with_heuristics`: the base rule chain, verbatim
from the source (novel_id is only logged there). -/
def judge_with_heuristics (backstory : String) (evidence : List Ev)
    (_novel_id : String) : Judgment :=
  if evidence = [] then (0, "No evidence found to support backstory", 0.50)
  else
    judgeBaseCore (check_antonyms backstory (combined_text evidence))
      (avg_similarity evidence) (pyMax (evidence.map Ev.similarity))
      (qualityFrac evidence) (token_overlap backstory (combined_text evidence))
      (veryHighCount evidence) (strongContr backstory evidence)
      (weakContr backstory evidence)

/-! ### semantic_analyzer.py: vocabularies -/

/-- `SemanticAnalyzer.causal_indicators` (a Python set literal; modelled as
the list of its distinct members — only counted, so order is immaterial). -/
def causal_indicators : List String :=
  ["because", "therefore", "thus", "consequently", "as a result",
   "due to", "caused by", "led to", "resulted in", "caused",
   "motivated", "driven by", "compelled", "forced", "driven",
   couldnt, "impossible", "prevented", "forbade", "prohibition",
   "had to", "must", "required", "necessary", "essential",
   "forced to", "obligated", "compelled to", "forced to act"]

/-- `SemanticAnalyzer.antonym_pairs`. -/
def sem_antonym_pairs : List (String × String) :=
  [("wealthy", "poverty"), ("rich", "poor"), ("wealth", "impoverished"),
   ("aristocrat", "peasant"), ("noble", "commoner"), ("upper", "lower"),
   ("loved", "hated"), ("affection", "hatred"), ("adored", "despised"),
   ("brave", "cowardly"), ("courageous", "fearful"), ("valor", "fear"),
   ("strong", "weak"), ("powerful", "powerless"), ("vigor", "frail"),
   ("dead", "alive"), ("died", "survived"), ("deceased", "living"),
   ("murdered", "survived"), ("killed", "lived"), ("fatal", "survival"),
   ("trusted", "betrayed"), ("loyal", "traitor"), ("faithful", "disloyal"),
   ("helped", "harmed"), ("aid", "harm"), ("assistance", "sabotage")]

/-- `SemanticAnalyzer.stop_words` (capitalised, compared against the cleaned
word exactly as in the source). -/
def stop_words : List String :=
  ["The", "A", "An", "He", "She", "It", "They", "We", "I", "You",
   "This", "That", "These", "Those", "In", "On", "At", "To", "For",
   "Of", "By", "With", "From", "After", "Before", "While", "When",
   "Where", "Who", "What", "Why", "How", "Then", "So", "But", "And",
   "Or", "Nor", "Yet", "Once", "Since", "Although", "Though"]

/-- `_extract_actions`, action vocabulary. -/
def action_words : List String :=
  ["became", "grew", "lived", "died", "was", "had", "made", "helped",
   "protected", "raised", "found", "discovered", "traveled", "moved",
   "worked", "studied", "learned", "taught", "created", "built",
   "escaped", "killed", "murdered", "saved", "rescued"]

/-! ### semantic_analyzer.py: extractors -/

/-- `SemanticAnalyzer._extract_entities`: capitalised tokens longer than 2
characters whose punctuation-stripped form is not a stop word. -/
def extract_entities (sentence : String) : List String :=
  (pySplitWS sentence).filterMap fun w =>
    match w.data with
    | [] => none
    | c :: _ =>
      if c.isUpper ∧ 2 < w.length ∧ cleanWord w ∉ stop_words then
        some (cleanWord w)
      else none

/-- Does the character list start with `1[789]\d{2}` followed by a word
boundary (end or non-word character)?  Head test of the year regex. -/
def yearHere : List Char → Bool
  | c1 :: c2 :: c3 :: c4 :: rest =>
    c1 = '1' && (c2 = '7' || c2 = '8' || c2 = '9') && c3.isDigit && c4.isDigit &&
      (match rest with | [] => true | r :: _ => !isWordChar r)
  | _ => false

/-- Scanner for `re.findall(r'\b(1[789]\d{2})\b', s)`: `atB` records whether
the current position sits at a `\b` boundary for a digit (start of string or
previous character non-word).  The fuel argument (instantiated with the input
length, consumed at least one character per step) makes the recursion
structural so that concrete runs reduce inside the kernel. -/
def findYearsAux : ℕ → List Char → Bool → List String
  | 0, _, _ => []
  | _ + 1, [], _ => []
  | fuel + 1, c :: cs, atB =>
    if atB && yearHere (c :: cs) then
      String.mk ((c :: cs).take 4) :: findYearsAux fuel (cs.drop 3) false
    else
      findYearsAux fuel cs (!isWordChar c)

/-- `SemanticAnalyzer._extract_dates`: 4-digit years 1700–1999. -/
def extract_dates (sentence : String) : List String :=
  findYearsAux sentence.data.length sentence.data true

/-- `SemanticAnalyzer._extract_actions`: members of the action vocabulary
occurring (as substrings) in the lowered sentence. -/
def extract_actions (sentence : String) : List String :=
  action_words.filter fun a => pyIn a (lowerStr sentence)

/-- `SemanticAnalyzer._classify_claim`. -/
def classify_claim (sentence : String) : String :=
  let lower := lowerStr sentence
  if ["was", "is", "became", "turned into"].any (fun w => pyIn w lower) then
    if ["wealthy", "poor", "brave", "kind", "cruel"].any (fun w => pyIn w lower) then
      "character_trait"
    else "event"
  else if ["because", "to", "in order to", "motivated"].any (fun w => pyIn w lower) then
    "motivation"
  else if ["mother", "father", "brother", "sister", "love", "hate",
      "relationship"].any (fun w => pyIn w lower) then
    "relationship"
  else "event"

/-- `SemanticAnalyzer._assess_importance`. -/
def assess_importance (sentence : String) : String :=
  let ws := pySplitWS (lowerStr sentence)
  let high := ["murdered", "killed", "died", "born", "father", "mother",
    "wealthy", "poor", "prison", "escape"]
  if ws.any (fun w => decide (w ∈ high)) then "high"
  else if 15 < (pySplitWS sentence).length then "medium"
  else "low"

/-- A backstory claim record as produced by `analyze_backstory_claims`
(`type` is `ctype`, a Python keyword clash). -/
structure PyClaim where
  text : String
  ctype : String
  importance : String
  entities : List String
  dates : List String
  actions : List String
deriving Repr, DecidableEq

/-- `SemanticAnalyzer.analyze_backstory_claims`: split the backstory into
sentences on `[.!?]`, keep stripped sentences of at least 3 words, attach
type/importance/entities/dates/actions.  (`re.split(r'[.!?]+', s)` merges
separator runs; splitting on single separators only adds empty fragments,
which the length filter drops, so the claim list is identical.) -/
def analyze_backstory_claims (backstory : String) : List PyClaim :=
  ((splitChars (fun c => c = '.' || c = '!' || c = '?') backstory.data).map
      (fun l => stripStr (String.mk l))).filterMap fun s =>
    if s = "" ∨ (pySplitWS s).length < 3 then none
    else some
      { text := s
        ctype := classify_claim s
        importance := assess_importance s
        entities := extract_entities s
        dates := extract_dates s
        actions := extract_actions s }

/-! ### semantic_analyzer.py: analysis signals -/

/-- Result record of `calculate_detail_overlap`. -/
structure DetailCheck where
  overlap_score : ℚ
  found_count : ℕ
  total_details : ℕ
  missing_details : List String
deriving Repr, DecidableEq

/-- `SemanticAnalyzer.calculate_detail_overlap`: literal (case-insensitive)
presence of each backstory entity/year in the combined evidence text.  The
entity/date sets are deduplicated lists; set iteration order only affects the
order of `missing_details`, which no consumer depends on. -/
def calculate_detail_overlap (backstory : String) (evidence : List Ev) : DetailCheck :=
  let bs_entities := (extract_entities backstory).dedup
  let bs_dates := (extract_dates backstory).dedup
  if bs_entities = [] ∧ bs_dates = [] then
    { overlap_score := 0.5, found_count := 0, total_details := 0, missing_details := [] }
  else
    let combined := joinSp (evidence.map (fun e => lowerStr e.text))
    let found_entities := (bs_entities.filter (fun e => pyIn (lowerStr e) combined)).length
    let found_dates := (bs_dates.filter (fun d => pyIn d combined)).length
    let missing := (bs_entities.filter (fun e => !pyIn (lowerStr e) combined)) ++
      (bs_dates.filter (fun d => !pyIn d combined))
    let total := bs_entities.length + bs_dates.length
    { overlap_score := ((found_entities + found_dates : ℕ) : ℚ) / (total : ℚ)
      found_count := found_entities + found_dates
      total_details := total
      missing_details := missing }

/-- `SemanticAnalyzer.find_semantic_contradictions`: for every (claim, chunk)
pair with similarity at least 0.60, record the first antonym pair whose first
member occurs in the claim and whose second occurs in the chunk. -/
def find_semantic_contradictions (claims : List PyClaim) (ev : List Ev) :
    List (String × String × ℚ) :=
  claims.flatMap fun claim =>
    ev.filterMap fun c =>
      if (0.60 : ℚ) ≤ c.similarity then
        match sem_antonym_pairs.find?
            (fun p => pyIn p.1 (lowerStr claim.text) && pyIn p.2 (lowerStr c.text)) with
        | some _ => some (claim.text, take100 c.text, min 0.95 (c.similarity + 0.15))
        | none => none
      else none

/-- Per-chunk support score of `score_evidence_support`: `min(1, similarity +
0.15·entity_overlap + 0.15·action_overlap)`. -/
def chunkClaimScore (claim : PyClaim) (c : Ev) : ℚ :=
  let chunk_words := ((pySplitWS (lowerStr c.text)).map lowerStr).dedup
  let entity_overlap := interCount ((claim.entities.map lowerStr).dedup) chunk_words
  let action_overlap := interCount (claim.actions.dedup) ((pySplitWS (lowerStr c.text)).dedup)
  min 1 (c.similarity + entity_overlap * 0.15 + action_overlap * 0.15)

/-- Per-claim best support: running maximum (starting at 0) of the per-chunk
support scores. -/
def claim_support (claim : PyClaim) (ev : List Ev) : ℚ :=
  ev.foldl (fun acc c => max acc (chunkClaimScore claim c)) 0

/-- `SemanticAnalyzer.score_evidence_support`: average of per-claim best
supports, defaulting to 0.5 when there are no claims or no chunks. -/
def score_evidence_support (claims : List PyClaim) (ev : List Ev) : ℚ :=
  if claims = [] ∨ ev = [] then 0.5
  else min 1 ((claims.map (fun cl => claim_support cl ev)).sum / claims.length)

/-- Result record of `analyze_causal_consistency`. -/
structure CausalInfo where
  has_causal_chain : Bool
  causal_consistency : ℚ
  backstory_causal_count : ℕ
  evidence_causal_count : ℕ
deriving Repr, DecidableEq

/-- `SemanticAnalyzer.analyze_causal_consistency`. -/
def analyze_causal_consistency (backstory : String) (ev : List Ev) : CausalInfo :=
  let evidence_text := joinSp (ev.map Ev.text)
  let bc := (causal_indicators.filter (fun i => pyIn i (lowerStr backstory))).length
  let ec := (causal_indicators.filter (fun i => pyIn i (lowerStr evidence_text))).length
  let cc : ℚ :=
    if 0 < bc then
      if ec = 0 then 0.4 else min 1 (0.5 + ((ec : ℚ) / ((bc : ℚ) + 1)) * 0.5)
    else 0.8
  { has_causal_chain := 0 < ec
    causal_consistency := cc
    backstory_causal_count := bc
    evidence_causal_count := ec }

/-- The analysis record returned by `enhance_evidence_with_semantic_analysis`. -/
structure SemInfo where
  claims : List PyClaim
  support_score : ℚ
  contradictions : List (String × String × ℚ)
  causal_analysis : CausalInfo
  detail_check : DetailCheck
deriving Repr, DecidableEq

/-- The analysis part of `enhance_evidence_with_semantic_analysis` (computed
from the (text, similarity) view of the evidence). -/
def semanticInfo (backstory : String) (ev : List Ev) : SemInfo :=
  let claims := analyze_backstory_claims backstory
  let support := score_evidence_support claims ev
  let contr := find_semantic_contradictions claims ev
  { claims := claims
    support_score := support
    contradictions := contr
    causal_analysis := analyze_causal_consistency backstory ev
    detail_check := calculate_detail_overlap backstory ev }

/-- The in-place annotation `enhance_evidence_with_semantic_analysis`
performs on each evidence dict of the caller. -/
def annotate (support : ℚ) (hasContr : Bool) (cc : ℚ) (c : EChunk) : EChunk :=
  { c with semantic_support_score := some support
           has_contradictions := some hasContr
           causal_consistency := some cc }

/-- `enhance_evidence_with_semantic_analysis`: returns the analysis record
and the post-call state of the caller's evidence list (each dict annotated in
place with three semantic keys). -/
def enhance_evidence_with_semantic_analysis (evidence : List EChunk)
    (backstory : String) : List EChunk × SemInfo :=
  let info := semanticInfo backstory (evidence.map evView)
  (evidence.map
    (annotate info.support_score (!info.contradictions.isEmpty)
      info.causal_analysis.causal_consistency),
   info)

/-! ### judge.py: enhanced heuristic path and `judge_consistency` -/

/-- First stage of `_judge_with_heuristics_enhanced`: the
contradiction-driven prediction flip and confidence adjustment, as a function
of the base judgment and of whether the semantic analysis found
contradictions. -/
def enhancedStep1 (base : Judgment) (hasContr : Bool) : Judgment :=
  if hasContr then
    if base.1 = 1 then
      (0, "Semantic analysis found contradictions in backstory", 0.88)
    else base
  else
    if base.1 = 1 then (base.1, base.2.1, min 0.95 (base.2.2 + 0.15))
    else (base.1, base.2.1, min 0.92 (base.2.2 + 0.12))

/-- Second stage of `_judge_with_heuristics_enhanced`: blend with the support
score, causal bonus, and the 0.88 floor when evidence exists with average
similarity above 0.35. -/
def enhancedConf (c2 support cc avg : ℚ) (hasEv : Bool) : ℚ :=
  let c3 := c2 * 0.6 + support * 0.40
  let c4 := if 0.75 < cc then min 0.95 (c3 + 0.08) else c3
  if hasEv = true ∧ 0.35 < avg then max c4 0.88 else c4

/-- `ConsistencyJudge._judge_with_heuristics_enhanced`: runs the base policy,
re-weights confidence with the semantic signals.  Note that the source reads
`support_score`, `causal_analysis` and `contradictions` from the analysis
record but never `detail_check`. -/
def judge_with_heuristics_enhanced (backstory : String) (evidence : List Ev)
    (novel_id : String) (semantic_info : SemInfo) : Judgment :=
  let base := judge_with_heuristics backstory evidence novel_id
  let step1 := enhancedStep1 base (decide (semantic_info.contradictions ≠ []))
  let conf := enhancedConf step1.2.2 semantic_info.support_score
    semantic_info.causal_analysis.causal_consistency (avg_similarity evidence)
    (decide (evidence ≠ []))
  (step1.1, step1.2.1, conf)

/-- The judgment computed by `ConsistencyJudge.judge_consistency` on the
heuristic policy (`use_llm = False`), as a function of the (text, similarity)
view of the evidence: semantic enhancement, enhanced heuristics, then the
final confidence floor of 0.88 when average similarity exceeds 0.40.  (The
annotation step only writes keys the judge never reads, so the judgment is a
function of this view.) -/
def judgeResult (backstory : String) (ev : List Ev) (novel_id : String) : Judgment :=
  let info := semanticInfo backstory ev
  let r := judge_with_heuristics_enhanced backstory ev novel_id info
  let conf :=
    if ev ≠ [] ∧ 0.40 < avg_similarity ev then max r.2.2 0.88 else r.2.2
  (r.1, r.2.1, conf)

/-- `ConsistencyJudge.judge_consistency` with the heuristic policy
(`use_llm = False`): returns the judgment triple together with the post-call
state of the caller's evidence list (whose dicts were annotated in place by
`enhance_evidence_with_semantic_analysis`). -/
def judge_consistency (backstory : String) (evidence : List EChunk)
    (novel_id : String) : Judgment × List EChunk :=
  let (enhanced_evidence, _info) :=
    enhance_evidence_with_semantic_analysis evidence backstory
  (judgeResult backstory (enhanced_evidence.map evView) novel_id, enhanced_evidence)

/-! ### retrieve.py and embeddings.py: the retrieval layer

Chunks live in a `PathwayVectorStore`; the embedding model is the external
collaborator and enters as a similarity oracle `sim : String → RChunk → ℚ`
(query text × chunk ↦ cosine similarity).  `search` mirrors
`PathwayVectorStore.search`: filter by novel, rank by similarity descending,
return the top-k as copies carrying their `'similarity'` key.  Tie order
among equal similarities (numpy argsort) is unspecified in the source; the
embedding uses a stable descending sort. -/

/-- A chunk record of the vector store / retriever: identity and text plus
the per-query keys written by search (`similarity`), quality scoring
(`quality_score`) and character filtering (`match_type`). -/
structure RChunk where
  novel_id : String
  chunk_id : ℕ
  text : String
  similarity : ℚ := 0
  quality_score : ℚ := 0
  match_type : Option String := none
deriving Repr, DecidableEq

/-- Stable descending sort by a rational key (Python `list.sort(key=...,
reverse=True)` is stable in exactly this sense: insertion sort folding from
the right and inserting strictly in front of lower-or-equal keys keeps the
original order of equal keys). -/
def sortDescBy (key : RChunk → ℚ) (l : List RChunk) : List RChunk :=
  l.insertionSort fun a b => key b ≤ key a

/-- `PathwayVectorStore.search`: filter the store by `novel_id`, score every
relevant chunk with the oracle, return the `top_k` highest-similarity chunks
(empty list — never an error — when the novel has no chunks). -/
def search (store : List RChunk) (sim : String → RChunk → ℚ)
    (query novel_id : String) (top_k : ℕ) : List RChunk :=
  let relevant := store.filter (fun c => decide (c.novel_id = novel_id))
  if relevant = [] then []
  else
    (sortDescBy RChunk.similarity
      (relevant.map (fun c => { c with similarity := sim query c }))).take top_k

/-- One step of `multi_query_search`'s best-score-wins deduplication: on a
repeated `(novel_id, chunk_id)` key, keep the higher-similarity copy
(`all_results.remove(existing)` followed by append). -/
def upsert (acc : List RChunk) (r : RChunk) : List RChunk :=
  match acc.find? (fun x => decide (x.novel_id = r.novel_id ∧ x.chunk_id = r.chunk_id)) with
  | none => acc ++ [r]
  | some ex => if ex.similarity < r.similarity then acc.erase ex ++ [r] else acc

/-- `PathwayVectorStore.multi_query_search`: search once per query, dedupe
best-score-wins, sort by similarity descending. -/
def multi_query_search (store : List RChunk) (sim : String → RChunk → ℚ)
    (queries : List String) (novel_id : String) (top_k_per_query : ℕ) : List RChunk :=
  sortDescBy RChunk.similarity
    (queries.foldl
      (fun acc q => (search store sim q novel_id top_k_per_query).foldl upsert acc) [])

/-- Does `\bword\b` match at the head of `l`, where `prevW` says whether the
character before `l` was a word character? -/
def conjHere (word : List Char) (l : List Char) (prevW : Bool) : Bool :=
  !prevW && word.isPrefixOf l &&
    (match l.drop word.length with | [] => true | r :: _ => !isWordChar r)

/-- Scanner for `re.split(r'[.;]|\band\b|\bbut\b|\byet\b', s)`: split at `.`
or `;` or at a whole-word `and`/`but`/`yet`.  `prevW` tracks whether the
previous character was a word character (for the `\b` tests). -/
def splitClaimsAux : ℕ → List Char → Bool → List (List Char)
  | 0, _, _ => [[]]
  | _ + 1, [], _ => [[]]
  | fuel + 1, c :: cs, prevW =>
    if c = '.' || c = ';' then [] :: splitClaimsAux fuel cs false
    else if conjHere ['a', 'n', 'd'] (c :: cs) prevW then
      [] :: splitClaimsAux fuel ((c :: cs).drop 3) true
    else if conjHere ['b', 'u', 't'] (c :: cs) prevW then
      [] :: splitClaimsAux fuel ((c :: cs).drop 3) true
    else if conjHere ['y', 'e', 't'] (c :: cs) prevW then
      [] :: splitClaimsAux fuel ((c :: cs).drop 3) true
    else
      match splitClaimsAux fuel cs (isWordChar c) with
      | [] => [[c]]
      | w :: ws => (c :: w) :: ws

/-- `EvidenceRetriever.decompose_backstory`: split on sentence punctuation
and coordinating conjunctions, keep stripped fragments of more than 3 words,
always append the full backstory as a holistic claim. -/
def decompose_backstory (backstory : String) : List String :=
  (((splitClaimsAux backstory.data.length backstory.data false).map (fun l => stripStr (String.mk l))).filter
      (fun cl => cl ≠ "" && decide (3 < (pySplitWS cl).length))) ++ [backstory]

/-- The per-chunk part of `EvidenceRetriever._score_evidence_quality`:
`quality = min(1, similarity + 0.15·overlap_ratio + (0.05 if more than 30
words))` written into the chunk's `quality_score` key. -/
def scoreChunk (backstory_words : List String) (c : RChunk) : RChunk :=
  let chunk_words := wordsGt3 c.text
  let overlapFrac : ℚ :=
    (interCount backstory_words chunk_words : ℚ) / (max backstory_words.length 1 : ℚ)
  let q := c.similarity + overlapFrac * 0.15
  let q := if 30 < (pySplitWS c.text).length then q + 0.05 else q
  { c with quality_score := min 1 q }

/-- `EvidenceRetriever._score_evidence_quality`: score every chunk and
re-sort by quality descending. -/
def score_evidence_quality (chunks : List RChunk) (backstory : String) : List RChunk :=
  sortDescBy RChunk.quality_score (chunks.map (scoreChunk (wordsGt3 backstory)))

/-- `EvidenceRetriever.retrieve_for_backstory`: decompose, multi-query
search with a per-claim budget of `max 3 (top_k / num_claims)`, quality-score
and keep the top-k. -/
def retrieve_for_backstory (store : List RChunk) (sim : String → RChunk → ℚ)
    (backstory novel_id : String) (top_k : ℕ) : List RChunk :=
  let claims := decompose_backstory backstory
  let all_chunks := multi_query_search store sim claims novel_id
    (max 3 (top_k / claims.length))
  (score_evidence_quality all_chunks backstory).take top_k

/-- `EvidenceRetriever._filter_by_character_mention`: keep exactly the chunks
whose lowered text contains the full lowered character name or one of its
significant (longer than 2 characters) lowered name tokens; record the match
kind in the chunk's `match_type` key. -/
def filter_by_character_mention (chunks : List RChunk) (character_name : String) :
    List RChunk :=
  let name_tokens :=
    ((pySplitWS character_name).filter (fun t => 2 < t.length)).map lowerStr
  let name_tokens := if name_tokens = [] then [lowerStr character_name] else name_tokens
  chunks.filterMap fun c =>
    let tl := lowerStr c.text
    if pyIn (lowerStr character_name) tl then
      some { c with match_type := some "full_name" }
    else
      match name_tokens.find? (fun t => pyIn t tl) with
      | some t => some { c with match_type := some ("partial_" ++ t) }
      | none => none

/-- The `seen_ids` deduplication step of `retrieve_with_character_focus`
(keyed on `chunk_id` alone, as in the source). -/
def dedupByChunkId : List RChunk → List ℕ → List RChunk
  | [], _ => []
  | c :: cs, seen =>
    if c.chunk_id ∈ seen then dedupByChunkId cs seen
    else c :: dedupByChunkId cs (c.chunk_id :: seen)

/-- `EvidenceRetriever.retrieve_with_character_focus`: query augmentation
(prepend the character name to every claim), 3× expanded search, dedup,
strict character filtering — with no fallback when fewer than 3 chunks
survive (the source only logs a warning there) — then quality scoring and
top-k selection. -/
def retrieve_with_character_focus (store : List RChunk) (sim : String → RChunk → ℚ)
    (backstory character_name novel_id : String) (top_k : ℕ) : List RChunk :=
  let raw_claims := decompose_backstory backstory
  let augmented_queries := raw_claims.map (fun cl => character_name ++ " " ++ cl)
  let all_chunks := multi_query_search store sim augmented_queries novel_id
    (max 5 ((top_k * 3) / augmented_queries.length))
  let unique_chunks := dedupByChunkId all_chunks []
  let filtered_chunks := filter_by_character_mention unique_chunks character_name
  (score_evidence_quality filtered_chunks backstory).take top_k

/-- The `{'early': …, 'middle': …, 'late': …}` record of
`retrieve_temporal_evidence`. -/
structure TemporalEvidence where
  early : List RChunk
  middle : List RChunk
  late : List RChunk
deriving Repr, DecidableEq

/-- `EvidenceRetriever.retrieve_temporal_evidence`: retrieve 2×top_k base
evidence, compute each chunk's relative position `chunk_id / max_chunk_id`
(maximum over all store chunks of the novel), partition into thirds, cap each
bucket at `top_k // 3`.  `max()` over the empty sequence (a novel with no
chunks in the store) raises `ValueError`; `chunk_id / 0` (maximum chunk id 0
with retrieved evidence to bucket) raises `ZeroDivisionError`. -/
def retrieve_temporal_evidence (store : List RChunk) (sim : String → RChunk → ℚ)
    (backstory novel_id : String) (top_k : ℕ) : Except String TemporalEvidence :=
  let all_evidence := retrieve_for_backstory store sim backstory novel_id (top_k * 2)
  match pyMaxNat ((store.filter (fun c => decide (c.novel_id = novel_id))).map RChunk.chunk_id) with
  | none => .error "ValueError: max() arg is an empty sequence"
  | some max_chunk_id =>
    if max_chunk_id = 0 ∧ all_evidence ≠ [] then
      .error "ZeroDivisionError: division by zero"
    else
      let pos : RChunk → ℚ := fun c => (c.chunk_id : ℚ) / (max_chunk_id : ℚ)
      let chunks_per_period := top_k / 3
      .ok
      { early := (all_evidence.filter (fun c => decide (pos c < 0.33))).take chunks_per_period
        middle := (all_evidence.filter
          (fun c => !decide (pos c < 0.33) && decide (pos c < 0.66))).take chunks_per_period
        late := (all_evidence.filter
          (fun c => !decide (pos c < 0.33) && !decide (pos c < 0.66))).take chunks_per_period }

/-! ### The temporal-constraint judgment policy (spec §4.6) -/

/-- A chunk text contradicts the backstory in the sense the spec's temporal
policy uses: an antonym-pair hit (the judge's `_check_antonyms`) or negation
combined with topical overlap (the judge's negation heuristic). -/
def temporalContradicts (backstory text : String) : Bool :=
  check_antonyms backstory text || negOverlapHit backstory text

/-- Modelled from the spec: `judge_with_temporal_constraints` is named by the
spec's external contract (§6) and specified as a state machine in §4.6, but no
function of that name appears anywhere under src/; only the evidence-side
`retrieve_temporal_evidence` exists.  Following §4.6 verbatim: (1) an
early-period contradiction at similarity ≥ 0.6 forces (0, 0.9); (2) a
late-period contradiction at similarity ≥ 0.7 not offset by early/middle
support forces (0, 0.7); (3) any period with similarity ≥ 0.65 evidence and
no disqualifying contradiction gives (1, 0.8); (4) otherwise (0, 0.6).
"Contradiction" is the antonym/negation-with-overlap test the spec names,
"support" is a non-contradicting chunk at the stated similarity. -/
def judge_with_temporal_constraints (backstory : String) (tev : TemporalEvidence)
    (_novel_id : String) : Judgment :=
  if tev.early.any (fun c =>
      decide (0.6 ≤ c.similarity) && temporalContradicts backstory c.text) then
    (0, "Early-period contradiction: early narrative constraints are near-immutable", 0.9)
  else if tev.late.any (fun c =>
        decide (0.7 ≤ c.similarity) && temporalContradicts backstory c.text)
      && !((tev.early ++ tev.middle).any (fun c =>
        decide (0.65 ≤ c.similarity) && !temporalContradicts backstory c.text)) then
    (0, "Late-period contradiction without offsetting early or middle support", 0.7)
  else if (tev.early ++ tev.middle ++ tev.late).any (fun c =>
      decide (0.65 ≤ c.similarity) && !temporalContradicts backstory c.text) then
    (1, "Period evidence supports the backstory with no disqualifying contradiction", 0.8)
  else
    (0, "Insufficient support across narrative periods", 0.6)

/-! ### Concrete inputs used by witnesses and counterexamples -/

/-- A backstory whose two extractable details (entities Bob, Zed) are absent
from the evidence below. -/
def c1_backstory : String := "Bob met Zed."

/-- Two high-similarity chunks (0.85 each) that never mention Bob or Zed and
contain no negation, antonym or causal vocabulary. -/
def c1_evidence : List EChunk :=
  [⟨"qq", 0.85, none, none, none⟩, ⟨"ww", 0.85, none, none, none⟩]

/-- Backstory of the C2 counterexample: contains "wealthy" (and the causal
cue "because", which suppresses the causal-consistency bonus); its single
sentence has fewer than 3 words, so the analyzer extracts no claims. -/
def c2_backstory : String := "wealthy because"

/-- Evidence of the C2 counterexample: one chunk above the 0.7 similarity
threshold containing "poverty", plus two irrelevant zero-similarity chunks
that dilute the average similarity below every confidence-floor trigger. -/
def c2_evidence : List EChunk :=
  [⟨"poverty", 0.71, none, none, none⟩,
   ⟨"zz", 0, none, none, none⟩,
   ⟨"zz", 0, none, none, none⟩]

/-- Witness input for the amended C2: a one-chunk wealthy/poverty clash. -/
def c2w_backstory : String := "He was wealthy"

/-- Witness evidence for the amended C2. -/
def c2w_evidence : List EChunk := [⟨"poverty", 0.8, none, none, none⟩]

/-- Two-chunk store for the character-focus witness: only chunk 1 mentions
Thalcave, chunk 2 mentions only Tom. -/
def c4_store : List RChunk :=
  [⟨"novel1", 1, "Thalcave climbed the mountains", 0, 0, none⟩,
   ⟨"novel1", 2, "Tom sailed around the cape", 0, 0, none⟩]

/-- Similarity oracle for the character-focus witness. -/
def c4_sim : String → RChunk → ℚ := fun _ c => if c.chunk_id = 1 then 0.9 else 0.8

/-- The chunk `retrieve_with_character_focus` returns in the C4 witness
scenario (the Thalcave chunk, scored and annotated). -/
def c4_result_chunk : RChunk :=
  ⟨"novel1", 1, "Thalcave climbed the mountains", 0.9, 1, some "full_name"⟩

/-- Temporal buckets for the C5 witness: an early antonym contradiction
(wealthy vs poverty at similarity 0.7) against strong middle and late
support (similarity 0.7 ≥ 0.65). -/
def c5_buckets : TemporalEvidence :=
  { early := [⟨"n", 1, "he lived in poverty in the village", 0.7, 0, none⟩]
    middle := [⟨"n", 5, "he rode eastward with the caravan", 0.7, 0, none⟩]
    late := [⟨"n", 9, "he returned in triumph to the village", 0.7, 0, none⟩] }

/-- Backstory judged in the C5 witness. -/
def c5_backstory : String := "John was always wealthy"

/-- Store for the C6 counterexample: a single chunk belonging to novel "A";
novel "B" has no chunks at all. -/
def c6_store : List RChunk := [⟨"A", 1, "some text", 0, 0, none⟩]

/-- Constant similarity oracle used by the retrieval examples. -/
def constSim : String → RChunk → ℚ := fun _ _ => 0.5

/-- Store for the C6 witness and C8 witness: four chunks of novel "n" with
ids spread over the narrative (maximum id 10). -/
def c8_store : List RChunk :=
  [⟨"n", 1, "alpha one", 0, 0, none⟩,
   ⟨"n", 5, "beta two", 0, 0, none⟩,
   ⟨"n", 9, "gamma three", 0, 0, none⟩,
   ⟨"n", 10, "delta four", 0, 0, none⟩]

/-- The buckets `retrieve_temporal_evidence` produces on `c8_store` with the
constant oracle, backstory "tale", novel "n" and top_k 9. -/
def c8_buckets : TemporalEvidence :=
  { early := [⟨"n", 1, "alpha one", 1/2, 1/2, none⟩]
    middle := [⟨"n", 5, "beta two", 1/2, 1/2, none⟩]
    late := [⟨"n", 9, "gamma three", 1/2, 1/2, none⟩, ⟨"n", 10, "delta four", 1/2, 1/2, none⟩] }

/-- Chunks fed to the quality scorer in the C7 witness. -/
def c7_chunks : List RChunk :=
  [⟨"n", 1, "a short note", 0.3, 0, none⟩,
   ⟨"n", 2, "John remembered the cold winters in his childhood home", 0.6, 0, none⟩]

/-- Evidence list for the C9 counterexample (no annotation keys present). -/
def c9_evidence : List EChunk := [⟨"abc", 0.5, none, none, none⟩]

/-- Provenance of a retrieved chunk: some chunk of the store for this novel
carries its chunk id. -/
def fromStore (store : List RChunk) (novel_id : String) (c : RChunk) : Prop :=
  ∃ sc ∈ store, sc.novel_id = novel_id ∧ sc.chunk_id = c.chunk_id

/-! ## Helper lemmas -/

theorem foldl_max_le_acc {α : Type} [LinearOrder α] (l : List α) (a : α) :
    a ≤ l.foldl max a := by
  induction l generalizing a with
  | nil => exact le_refl a
  | cons x xs ih => exact le_trans (le_max_left a x) (ih (max a x))

theorem le_foldl_max_of_mem {α : Type} [LinearOrder α] {x : α} {l : List α}
    (h : x ∈ l) (a : α) : x ≤ l.foldl max a := by
  induction l generalizing a with
  | nil => cases h
  | cons y ys ih =>
    rcases List.mem_cons.mp h with rfl | hmem
    · exact le_trans (le_max_right a x) (foldl_max_le_acc ys (max a x))
    · exact ih hmem (max a y)

theorem le_pyMax_of_mem {x : ℚ} {l : List ℚ} (h : x ∈ l) : x ≤ pyMax l := by
  cases l with
  | nil => cases h
  | cons y ys =>
    rcases List.mem_cons.mp h with rfl | hmem
    · exact foldl_max_le_acc ys x
    · exact le_foldl_max_of_mem hmem y

theorem pyMaxNat_le {m : ℕ} {l : List ℕ} (h : pyMaxNat l = some m) :
    ∀ x ∈ l, x ≤ m := by
  cases l with
  | nil => simp [pyMaxNat] at h
  | cons y ys =>
    simp only [pyMaxNat, Option.some.injEq] at h
    intro x hx
    rcases List.mem_cons.mp hx with rfl | hmem
    · exact h ▸ foldl_max_le_acc ys x
    · exact h ▸ le_foldl_max_of_mem hmem y

theorem interCount_le (a b : List String) : interCount a b ≤ a.length :=
  List.length_filter_le _ a

theorem token_overlap_bounds (b c : String) :
    0 ≤ token_overlap b c ∧ token_overlap b c ≤ 1 := by
  unfold token_overlap
  have hd : (0 : ℚ) < max ((wordsGt3 b).length : ℚ) 1 :=
    lt_of_lt_of_le one_pos (le_max_right _ 1)
  constructor
  · exact div_nonneg (by positivity) (le_of_lt hd)
  · rw [div_le_one hd]
    calc (interCount (wordsGt3 b) (wordsGt3 c) : ℚ) ≤ ((wordsGt3 b).length : ℚ) := by
          exact_mod_cast interCount_le _ _
      _ ≤ max ((wordsGt3 b).length : ℚ) 1 := le_max_left _ 1

theorem qualityFrac_bounds {ev : List Ev} (h : ev ≠ []) :
    0 ≤ qualityFrac ev ∧ qualityFrac ev ≤ 1 := by
  unfold qualityFrac
  have hlen : (0 : ℚ) < ev.length := by
    have : 0 < ev.length := List.length_pos.mpr h
    exact_mod_cast this
  constructor
  · positivity
  · rw [div_le_one hlen]
    exact_mod_cast List.length_filter_le _ ev

theorem avg_le_pyMax {ev : List Ev} (h : ev ≠ []) :
    avg_similarity ev ≤ pyMax (ev.map Ev.similarity) := by
  unfold avg_similarity
  have hlen : (0 : ℚ) < ev.length := by
    have : 0 < ev.length := List.length_pos.mpr h
    exact_mod_cast this
  rw [div_le_iff₀ hlen]
  have := List.sum_le_card_nsmul (ev.map Ev.similarity) (pyMax (ev.map Ev.similarity))
    (fun x hx => le_pyMax_of_mem hx)
  simpa [mul_comm, List.length_map] using this

set_option maxHeartbeats 1000000 in
theorem judgeBaseCore_bounds (hasAnt : Bool) (avg mx eqf tok : ℚ)
    (veryHigh strong weak : ℕ) (htok0 : 0 ≤ tok) (htok1 : tok ≤ 1)
    (hqf0 : 0 ≤ eqf) (hqf1 : eqf ≤ 1) (hmax : avg ≤ mx) :
    ((judgeBaseCore hasAnt avg mx eqf tok veryHigh strong weak).1 = 0 ∨
      (judgeBaseCore hasAnt avg mx eqf tok veryHigh strong weak).1 = 1) ∧
    1/2 ≤ (judgeBaseCore hasAnt avg mx eqf tok veryHigh strong weak).2.2 ∧
    (judgeBaseCore hasAnt avg mx eqf tok veryHigh strong weak).2.2 ≤ 0.95 := by
  unfold judgeBaseCore
  split_ifs with h1 h2 h3 h4 h5 h6 h7 h8 h9 h10 <;>
    refine ⟨by (try split_ifs) <;> simp, ?_, ?_⟩ <;> dsimp only
  · exact le_min (by norm_num) (by linarith)
  · exact min_le_left _ _
  · exact le_min (by norm_num) (by linarith)
  · exact min_le_left _ _
  · exact le_min (by norm_num) (by linarith)
  · exact (min_le_left _ _).trans (by norm_num)
  · have hm : (0 : ℚ) ≤ min 0.05 ((mx - 0.70) * 0.2) :=
      le_min (by norm_num) (by nlinarith [h4.1])
    exact le_min (by norm_num) (by linarith)
  · exact min_le_left _ _
  · exact le_min (by norm_num) (by linarith)
  · exact min_le_left _ _
  · exact le_min (by norm_num) (by linarith)
  · exact (min_le_left _ _).trans (by norm_num)
  · exact le_min (by norm_num) (by linarith)
  · exact (min_le_left _ _).trans (by norm_num)
  · linarith
  · linarith
  · linarith
  · linarith
  · linarith
  · linarith
  · push_neg at h3 h10
    linarith
  · push_neg at h3 h10
    linarith

theorem foldl_max_f_acc_le (f : Ev → ℚ) (ev : List Ev) (acc : ℚ) :
    acc ≤ ev.foldl (fun a c => max a (f c)) acc := by
  induction ev generalizing acc with
  | nil => exact le_refl acc
  | cons c cs ih => exact le_trans (le_max_left _ _) (ih (max acc (f c)))

theorem le_foldl_max_f (f : Ev → ℚ) {c : Ev} {ev : List Ev} (h : c ∈ ev) (acc : ℚ) :
    f c ≤ ev.foldl (fun a x => max a (f x)) acc := by
  induction ev generalizing acc with
  | nil => cases h
  | cons y ys ih =>
    rcases List.mem_cons.mp h with rfl | hmem
    · exact le_trans (le_max_right acc (f c)) (foldl_max_f_acc_le f ys _)
    · exact ih hmem _

theorem foldl_max_f_ub (f : Ev → ℚ) (ev : List Ev) (acc u : ℚ)
    (hacc : acc ≤ u) (hub : ∀ c ∈ ev, f c ≤ u) :
    ev.foldl (fun a c => max a (f c)) acc ≤ u := by
  induction ev generalizing acc with
  | nil => exact hacc
  | cons c cs ih =>
    exact ih _ (max_le hacc (hub c (List.mem_cons_self c cs))) fun x hx => hub x (List.mem_cons_of_mem c hx)

theorem claim_support_bounds (claim : PyClaim) (ev : List Ev) :
    0 ≤ claim_support claim ev ∧ claim_support claim ev ≤ 1 := by
  unfold claim_support
  exact ⟨foldl_max_f_acc_le _ ev 0,
    foldl_max_f_ub _ ev 0 1 (by norm_num) fun c _ => min_le_left _ _⟩

theorem support_bounds (claims : List PyClaim) (ev : List Ev) :
    0 ≤ score_evidence_support claims ev ∧ score_evidence_support claims ev ≤ 1 := by
  unfold score_evidence_support
  split_ifs with h
  · norm_num
  · push_neg at h
    refine ⟨le_min (by norm_num) ?_, min_le_left _ _⟩
    apply div_nonneg
    · exact List.sum_nonneg fun x hx => by
        obtain ⟨cl, _, rfl⟩ := List.mem_map.mp hx
        exact (claim_support_bounds cl ev).1
    · positivity

theorem chunkClaimScore_gt {claim : PyClaim} {c : Ev} (h : 0.7 < c.similarity) :
    0.7 < chunkClaimScore claim c := by
  unfold chunkClaimScore
  refine lt_min (by norm_num) ?_
  have h1 : (0 : ℚ) ≤ (interCount ((claim.entities.map lowerStr).dedup)
      (((pySplitWS (lowerStr c.text)).map lowerStr).dedup) : ℚ) * 0.15 := by positivity
  have h2 : (0 : ℚ) ≤ (interCount (claim.actions.dedup)
      ((pySplitWS (lowerStr c.text)).dedup) : ℚ) * 0.15 := by positivity
  linarith

theorem support_gt {claims : List PyClaim} {ev : List Ev} {c : Ev}
    (hclaims : claims ≠ []) (hc : c ∈ ev) (hsim : 0.7 < c.similarity) :
    0.7 < score_evidence_support claims ev := by
  have hev : ev ≠ [] := fun h => by subst h; cases hc
  have hq0 : (0.7 : ℚ) < min 1 c.similarity := lt_min (by norm_num) hsim
  have hcl : ∀ cl : PyClaim, min 1 c.similarity ≤ claim_support cl ev := by
    intro cl
    refine le_trans ?_ (le_foldl_max_f (chunkClaimScore cl) hc 0)
    unfold chunkClaimScore
    refine min_le_min (le_refl 1) ?_
    have h1 : (0 : ℚ) ≤ (interCount ((cl.entities.map lowerStr).dedup)
        (((pySplitWS (lowerStr c.text)).map lowerStr).dedup) : ℚ) * 0.15 := by positivity
    have h2 : (0 : ℚ) ≤ (interCount (cl.actions.dedup)
        ((pySplitWS (lowerStr c.text)).dedup) : ℚ) * 0.15 := by positivity
    linarith
  have hlen : (0 : ℚ) < claims.length := by
    have : 0 < claims.length := List.length_pos.mpr hclaims
    exact_mod_cast this
  have hsum : claims.length • (min 1 c.similarity) ≤
      ((claims.map fun cl => claim_support cl ev).sum) := by
    have := List.card_nsmul_le_sum (claims.map fun cl => claim_support cl ev)
      (min 1 c.similarity) (fun x hx => by
        obtain ⟨cl, _, rfl⟩ := List.mem_map.mp hx
        exact hcl cl)
    simpa [List.length_map] using this
  have hdiv : min 1 c.similarity ≤
      ((claims.map fun cl => claim_support cl ev).sum) / claims.length := by
    rw [le_div_iff₀ hlen]
    calc min 1 c.similarity * claims.length = claims.length • (min 1 c.similarity) := by
          rw [nsmul_eq_mul, mul_comm]
      _ ≤ _ := hsum
  calc (0.7 : ℚ) < min 1 c.similarity := hq0
    _ ≤ score_evidence_support claims ev := by
        unfold score_evidence_support
        rw [if_neg (by simp [hclaims, hev])]
        exact le_min (min_le_left _ _) hdiv

theorem base_judgment_bounds (b : String) (ev : List Ev) (n : String) :
    ((judge_with_heuristics b ev n).1 = 0 ∨ (judge_with_heuristics b ev n).1 = 1) ∧
    1/2 ≤ (judge_with_heuristics b ev n).2.2 ∧ (judge_with_heuristics b ev n).2.2 ≤ 0.95 := by
  unfold judge_with_heuristics
  by_cases hev : ev = []
  · rw [if_pos hev]
    exact ⟨Or.inl rfl, by norm_num, by norm_num⟩
  · rw [if_neg hev]
    obtain ⟨htok0, htok1⟩ := token_overlap_bounds b (combined_text ev)
    obtain ⟨hqf0, hqf1⟩ := qualityFrac_bounds hev
    exact judgeBaseCore_bounds _ _ _ _ _ _ _ _ htok0 htok1 hqf0 hqf1 (avg_le_pyMax hev)

theorem enhancedStep1_pred (base : Judgment) (hc : Bool) :
    (enhancedStep1 base hc).1 = 0 ∨ (enhancedStep1 base hc).1 = base.1 := by
  unfold enhancedStep1
  split_ifs <;> simp

theorem enhancedStep1_conf_bounds (base : Judgment) (hc : Bool)
    (h0 : 1/2 ≤ base.2.2) (h1 : base.2.2 ≤ 0.95) :
    1/2 ≤ (enhancedStep1 base hc).2.2 ∧ (enhancedStep1 base hc).2.2 ≤ 0.95 := by
  unfold enhancedStep1
  split_ifs <;> refine ⟨?_, ?_⟩ <;> dsimp only
  · norm_num
  · norm_num
  · exact h0
  · exact h1
  · exact le_min (by norm_num) (by linarith)
  · exact min_le_left _ _
  · exact le_min (by norm_num) (by linarith)
  · exact (min_le_left _ _).trans (by norm_num)

theorem enhancedConf_bounds (c2 support cc avg : ℚ) (hasEv : Bool)
    (hc20 : 1/2 ≤ c2) (hc21 : c2 ≤ 0.95) (hs0 : 0 ≤ support) (hs1 : support ≤ 1) :
    0 ≤ enhancedConf c2 support cc avg hasEv ∧
    enhancedConf c2 support cc avg hasEv ≤ 0.97 := by
  unfold enhancedConf
  split_ifs <;> refine ⟨?_, ?_⟩ <;> dsimp only
  · exact le_trans (by norm_num) (le_max_right _ 0.88)
  · exact max_le ((min_le_left _ _).trans (by norm_num)) (by norm_num)
  · exact le_min (by norm_num) (by nlinarith)
  · exact (min_le_left _ _).trans (by norm_num)
  · exact le_trans (by norm_num) (le_max_right _ 0.88)
  · exact max_le (by nlinarith) (by norm_num)
  · nlinarith
  · nlinarith

theorem judgeResult_bounds (b : String) (ev : List Ev) (n : String) :
    ((judgeResult b ev n).1 = 0 ∨ (judgeResult b ev n).1 = 1) ∧
    0 ≤ (judgeResult b ev n).2.2 ∧ (judgeResult b ev n).2.2 ≤ 1 := by
  obtain ⟨hpred, hc0, hc1⟩ := base_judgment_bounds b ev n
  obtain ⟨hs0, hs1⟩ := support_bounds (analyze_backstory_claims b) ev
  have hsupp : (semanticInfo b ev).support_score =
      score_evidence_support (analyze_backstory_claims b) ev := rfl
  have hstep := enhancedStep1_conf_bounds (judge_with_heuristics b ev n)
    (decide ((semanticInfo b ev).contradictions ≠ [])) hc0 hc1
  have hconf := enhancedConf_bounds
    (enhancedStep1 (judge_with_heuristics b ev n)
      (decide ((semanticInfo b ev).contradictions ≠ []))).2.2
    (semanticInfo b ev).support_score
    (semanticInfo b ev).causal_analysis.causal_consistency
    (avg_similarity ev) (decide (ev ≠ [])) hstep.1 hstep.2
    (hsupp ▸ hs0) (hsupp ▸ hs1)
  have hp := enhancedStep1_pred (judge_with_heuristics b ev n)
    (decide ((semanticInfo b ev).contradictions ≠ []))
  unfold judgeResult judge_with_heuristics_enhanced
  dsimp only
  refine ⟨?_, ?_, ?_⟩
  · rcases hp with h | h
    · exact Or.inl h
    · rw [h]; exact hpred
  · split_ifs with h
    · exact le_trans (by norm_num) (le_max_right _ 0.88)
    · linarith [hconf.1]
  · split_ifs with h
    · exact max_le (by linarith [hconf.2]) (by norm_num)
    · linarith [hconf.2]

theorem infix_joinSpData {x : List Char} {xs : List (List Char)} (h : x ∈ xs) :
    x <:+: joinSpData xs := by
  induction xs with
  | nil => cases h
  | cons y ys ih =>
    rcases List.mem_cons.mp h with rfl | hmem
    · cases ys with
      | nil => exact List.infix_refl x
      | cons z zs => exact ⟨[], ' ' :: joinSpData (z :: zs), by simp [joinSpData]⟩
    · cases ys with
      | nil => cases hmem
      | cons z zs =>
        exact (ih hmem).trans ⟨y ++ [' '], [], by simp [joinSpData]⟩

theorem pyIn_of_mem_joinSp {needle t : String} {l : List String} (ht : t ∈ l)
    (h : pyIn needle (lowerStr t) = true) :
    pyIn needle (lowerStr (joinSp l)) = true := by
  simp only [pyIn, decide_eq_true_eq] at h ⊢
  refine h.trans ?_
  show (t.data.map Char.toLower) <:+: ((joinSpData (l.map String.data)).map Char.toLower)
  exact (infix_joinSpData (List.mem_map_of_mem String.data ht)).map _

theorem check_antonyms_wealthy_poverty {b e : String}
    (hw : pyIn "wealthy" (lowerStr b) = true)
    (hp : pyIn "poverty" (lowerStr e) = true) :
    check_antonyms b e = true := by
  simp [check_antonyms, judge_antonym_pairs, hw, hp]

theorem enhancedStep1_pred_zero {base : Judgment} (hb : base.1 = 0) (hc : Bool) :
    (enhancedStep1 base hc).1 = 0 := by
  unfold enhancedStep1
  split_ifs with h1 h2 h3 <;> simp_all

theorem enhancedConf_gt {c2 s : ℚ} (cc avg : ℚ) (hasEv : Bool)
    (h : 3/4 < c2 * 0.6 + s * 0.40) :
    3/4 < enhancedConf c2 s cc avg hasEv := by
  unfold enhancedConf
  split_ifs <;> dsimp only
  · exact lt_of_lt_of_le (by norm_num) (le_max_right _ _)
  · exact lt_min (by norm_num) (by linarith)
  · exact lt_of_lt_of_le (by norm_num) (le_max_right _ _)
  · exact h

theorem judgeResult_wealthy_poverty (b : String) (ev : List Ev) (n : String)
    (hw : pyIn "wealthy" (lowerStr b) = true)
    (hex : ∃ c ∈ ev, 0.7 < c.similarity ∧ pyIn "poverty" (lowerStr c.text) = true) :
    (judgeResult b ev n).1 = 0 ∧ 3/4 < (judgeResult b ev n).2.2 := by
  obtain ⟨c0, hc0, hsim, hpov⟩ := hex
  have hev : ev ≠ [] := fun h => by subst h; cases hc0
  obtain ⟨hqf0, hqf1⟩ := qualityFrac_bounds hev
  have hant : check_antonyms b (combined_text ev) = true :=
    check_antonyms_wealthy_poverty hw
      (pyIn_of_mem_joinSp (List.mem_map_of_mem Ev.text hc0) hpov)
  have hbase : judge_with_heuristics b ev n =
      (0, "Backstory contradicts evidence (antonyms found)",
        min 0.95 (0.85 + qualityFrac ev * 0.10)) := by
    unfold judge_with_heuristics judgeBaseCore
    rw [if_neg hev, if_pos hant]
  have hbc0 : (0.85 : ℚ) ≤ (judge_with_heuristics b ev n).2.2 := by
    rw [hbase]
    exact le_min (by norm_num) (by linarith)
  have hbc1 : (judge_with_heuristics b ev n).2.2 ≤ 0.95 := by
    rw [hbase]
    exact min_le_left _ _
  have hbp : (judge_with_heuristics b ev n).1 = 0 := by rw [hbase]
  -- the blended confidence exceeds 3/4 whether or not claims were extracted
  have hblend : 3/4 <
      (enhancedStep1 (judge_with_heuristics b ev n)
        (decide ((semanticInfo b ev).contradictions ≠ []))).2.2 * 0.6 +
      (semanticInfo b ev).support_score * 0.40 := by
    have hsupp : (semanticInfo b ev).support_score =
        score_evidence_support (analyze_backstory_claims b) ev := rfl
    have hcontr : (semanticInfo b ev).contradictions =
        find_semantic_contradictions (analyze_backstory_claims b) ev := rfl
    rcases hcl : analyze_backstory_claims b with _ | ⟨cl, cls⟩
    · -- no claims: no contradictions, support defaults to 0.5,
      -- confidence is min 0.92 (base + 0.12) ≥ 0.92
      have hc : (semanticInfo b ev).contradictions = [] := by
        rw [hcontr, hcl]
        rfl
      have hs : (semanticInfo b ev).support_score = 0.5 := by
        rw [hsupp, hcl]
        simp [score_evidence_support]
      rw [hc, hs]
      have hstep : (enhancedStep1 (judge_with_heuristics b ev n) (decide (([] : List (String × String × ℚ)) ≠ []))).2.2 =
          min 0.92 ((judge_with_heuristics b ev n).2.2 + 0.12) := by
        unfold enhancedStep1
        rw [if_neg (by simp), if_neg (by rw [hbp]; norm_num)]
      rw [hstep]
      have : (0.92 : ℚ) ≤ min 0.92 ((judge_with_heuristics b ev n).2.2 + 0.12) :=
        le_min (le_refl _) (by linarith)
      linarith
    · -- at least one claim: support exceeds 0.7 thanks to the 0.71+ chunk
      have hs : 0.7 < (semanticInfo b ev).support_score := by
        rw [hsupp, hcl]
        exact support_gt (by simp) hc0 hsim
      have hstep : (0.85 : ℚ) ≤ (enhancedStep1 (judge_with_heuristics b ev n)
          (decide ((semanticInfo b ev).contradictions ≠ []))).2.2 := by
        unfold enhancedStep1
        split_ifs with h1 h2 h3
        · rw [hbp] at h2; norm_num at h2
        · exact hbc0
        · rw [hbp] at h3; norm_num at h3
        · exact le_trans (le_min (by norm_num) (by linarith)) (le_refl _)
      have hs1 : (semanticInfo b ev).support_score ≤ 1 :=
        (hsupp ▸ (support_bounds (analyze_backstory_claims b) ev).2)
      nlinarith [hstep, hs]
  constructor
  · show (judge_with_heuristics_enhanced b ev n (semanticInfo b ev)).1 = 0
    exact enhancedStep1_pred_zero hbp _
  · show 3/4 < (judgeResult b ev n).2.2
    unfold judgeResult judge_with_heuristics_enhanced
    dsimp only
    split_ifs with h
    · exact lt_of_lt_of_le (by norm_num) (le_max_right _ _)
    · exact enhancedConf_gt _ _ _ hblend

theorem judge_consistency_fst (b : String) (evidence : List EChunk) (n : String) :
    (judge_consistency b evidence n).1 = judgeResult b (evidence.map evView) n := by
  unfold judge_consistency enhance_evidence_with_semantic_analysis
  dsimp only
  rw [List.map_map]
  rfl

/-! ## Claim theorems -/

set_option maxRecDepth 10000 in
set_option maxHeartbeats 2000000 in
/-- C1.  The claim says: for every backstory with at least 2 extractable
details, none appearing verbatim in the evidence, the heuristic path of
`judge_consistency` returns prediction 0 with confidence at least 0.85 and
the detail check reports missing details.  The code violates this: the
detail check is computed (and here indeed reports 2 missing details with
overlap 0) but `_judge_with_heuristics_enhanced` never reads `detail_check`,
so well-supported evidence yields prediction 1 with confidence 0.95 at this
input — the hallucination override described by the spec is not wired into
the judge. -/
theorem C1_hallucination_check_unwired :
    (judge_consistency c1_backstory c1_evidence "novel1").1 =
      (1, "Backstory is well-supported by narrative evidence", 19/20) ∧
    (calculate_detail_overlap c1_backstory (c1_evidence.map evView)).total_details = 2 ∧
    (calculate_detail_overlap c1_backstory (c1_evidence.map evView)).overlap_score = 0 ∧
    (calculate_detail_overlap c1_backstory (c1_evidence.map evView)).missing_details = ["Bob", "Zed"] := by
  refine ⟨by with_unfolding_all decide, by with_unfolding_all decide, by with_unfolding_all decide, by with_unfolding_all decide⟩

/-- C2, counterexample.  At this concrete input the backstory contains
"wealthy" and the evidence holds a chunk of similarity 0.71 > 0.7 containing
"poverty", yet the heuristic path returns confidence 94/125 = 0.752 < 0.8:
the claim's bound `confidence ≥ 0.8` is false as stated. -/
theorem C2_counterexample :
    pyIn "wealthy" (lowerStr c2_backstory) = true ∧
    (∃ c ∈ c2_evidence, 0.7 < c.similarity ∧ pyIn "poverty" (lowerStr c.text) = true) ∧
    (judge_consistency c2_backstory c2_evidence "n").1.1 = 0 ∧
    (judge_consistency c2_backstory c2_evidence "n").1.2.2 = 94/125 ∧
    ¬ (0.8 : ℚ) ≤ 94/125 := by
  refine ⟨by with_unfolding_all decide, by with_unfolding_all decide, by with_unfolding_all decide, by with_unfolding_all decide, by norm_num⟩

/-- C2, amended.  For every backstory containing "wealthy" (lower-cased) and
every evidence list with a chunk of similarity above 0.7 whose text contains
"poverty", the heuristic path of `judge_consistency` returns prediction 0 —
and its confidence always exceeds 0.75, though (per the counterexample) it
can fall below the claimed 0.8. -/
theorem C2_wealthy_poverty_amended (backstory : String) (evidence : List EChunk)
    (novel_id : String)
    (hw : pyIn "wealthy" (lowerStr backstory) = true)
    (hex : ∃ c ∈ evidence, 0.7 < c.similarity ∧ pyIn "poverty" (lowerStr c.text) = true) :
    (judge_consistency backstory evidence novel_id).1.1 = 0 ∧
    3/4 < (judge_consistency backstory evidence novel_id).1.2.2 := by
  obtain ⟨c0, hc0, hsim, hpov⟩ := hex
  have h := judgeResult_wealthy_poverty backstory (evidence.map evView) novel_id hw
    ⟨evView c0, List.mem_map_of_mem evView hc0, hsim, hpov⟩
  rw [judge_consistency_fst]
  exact h

/-- Witness for the amended C2 at a concrete wealthy/poverty clash. -/
theorem C2_wealthy_poverty_witness :
    (judge_consistency c2w_backstory c2w_evidence "n").1.1 = 0 ∧
    3/4 < (judge_consistency c2w_backstory c2w_evidence "n").1.2.2 :=
  C2_wealthy_poverty_amended c2w_backstory c2w_evidence "n" (by with_unfolding_all decide) (by with_unfolding_all decide)

/-- C3.  For every backstory, evidence list and novel id, the heuristic path
of `judge_consistency` is total (the embedding is a Lean function) and
returns a prediction in {0, 1} and a confidence in [0, 1]; and the base
heuristic returns prediction 0 with confidence 0.5 on empty evidence. -/
theorem C3_total_and_bounded (backstory : String) (evidence : List EChunk)
    (novel_id : String) :
    ((judge_consistency backstory evidence novel_id).1.1 = 0 ∨
      (judge_consistency backstory evidence novel_id).1.1 = 1) ∧
    0 ≤ (judge_consistency backstory evidence novel_id).1.2.2 ∧
    (judge_consistency backstory evidence novel_id).1.2.2 ≤ 1 ∧
    judge_with_heuristics backstory [] novel_id =
      (0, "No evidence found to support backstory", 0.50) := by
  have h := judgeResult_bounds backstory (evidence.map evView) novel_id
  rw [judge_consistency_fst]
  exact ⟨h.1, h.2.1, h.2.2, rfl⟩

/-- C5.  Spec-modelled temporal policy: whenever the early bucket contains a
chunk of similarity at least 0.6 whose text contradicts the backstory (an
antonym pair or negation with topical overlap), `judge_with_temporal_constraints`
returns prediction 0 with confidence 0.9 — regardless of any supporting
middle/late evidence, which the statement quantifies over freely. -/
theorem C5_early_contradiction_overrides (backstory : String)
    (tev : TemporalEvidence) (novel_id : String)
    (h : ∃ c ∈ tev.early, 0.6 ≤ c.similarity ∧ temporalContradicts backstory c.text = true) :
    judge_with_temporal_constraints backstory tev novel_id =
      (0, "Early-period contradiction: early narrative constraints are near-immutable",
        0.9) := by
  obtain ⟨c, hc, hsim, hcontra⟩ := h
  have hany : tev.early.any (fun c =>
      decide (0.6 ≤ c.similarity) && temporalContradicts backstory c.text) = true := by
    rw [List.any_eq_true]
    exact ⟨c, hc, by simp [hsim, hcontra]⟩
  unfold judge_with_temporal_constraints
  rw [if_pos hany]

/-- Witness for C5: an early wealthy/poverty contradiction at similarity 0.7
overrides middle and late supporting chunks at similarity 0.7 ≥ 0.65. -/
theorem C5_witness :
    (0.65 ≤ (0.7 : ℚ) ∧ c5_buckets.middle ≠ [] ∧ c5_buckets.late ≠ []) ∧
    judge_with_temporal_constraints c5_backstory c5_buckets "n" =
      (0, "Early-period contradiction: early narrative constraints are near-immutable",
        0.9) :=
  ⟨by norm_num [c5_buckets], C5_early_contradiction_overrides c5_backstory c5_buckets "n" (by with_unfolding_all decide)⟩

/-- C9, counterexample.  `judge_consistency` does modify the evidence chunks
passed in: at this input, the caller's chunk has three semantic annotation
keys after the call that it did not have before, so the post-call list
differs from the pre-call list. -/
theorem C9_counterexample :
    (judge_consistency "story" c9_evidence "n").2 ≠ c9_evidence := by
  with_unfolding_all decide

/-- C9, amended.  `judge_consistency` leaves the text and similarity of every
evidence chunk unchanged (the in-place writes touch only the three semantic
annotation keys), and the state it writes is not observable in a later call:
judging the post-call evidence again yields the same triple. -/
theorem C9_annotation_frame (backstory : String) (evidence : List EChunk)
    (novel_id : String) :
    ((judge_consistency backstory evidence novel_id).2.map evView =
      evidence.map evView) ∧
    (judge_consistency backstory
        ((judge_consistency backstory evidence novel_id).2) novel_id).1 =
      (judge_consistency backstory evidence novel_id).1 := by
  have hview : (judge_consistency backstory evidence novel_id).2.map evView =
      evidence.map evView := by
    show ((evidence.map (annotate _ _ _)).map evView) = evidence.map evView
    rw [List.map_map]
    rfl
  refine ⟨hview, ?_⟩
  rw [judge_consistency_fst, judge_consistency_fst, hview]

/-- C10.  The heuristic judgment path is deterministic: it is a pure function
of (backstory, evidence, novel_id), so equal inputs give equal outputs —
prediction, rationale, confidence and the annotated evidence alike. -/
theorem C10_heuristic_deterministic (b1 b2 : String) (ev1 ev2 : List EChunk)
    (n1 n2 : String) (hb : b1 = b2) (hev : ev1 = ev2) (hn : n1 = n2) :
    judge_consistency b1 ev1 n1 = judge_consistency b2 ev2 n2 := by
  subst hb hev hn
  rfl

/-- Witness for C10 at a concrete input. -/
theorem C10_witness :
    judge_consistency "story" c9_evidence "n" = judge_consistency "story" c9_evidence "n" :=
  C10_heuristic_deterministic "story" "story" c9_evidence c9_evidence "n" "n" rfl rfl rfl

theorem sortDescBy_perm (key : RChunk → ℚ) (l : List RChunk) :
    (sortDescBy key l).Perm l :=
  List.perm_insertionSort _ l

theorem mem_sortDescBy {c : RChunk} {key : RChunk → ℚ} {l : List RChunk} :
    c ∈ sortDescBy key l ↔ c ∈ l :=
  (sortDescBy_perm key l).mem_iff

theorem sortDescBy_sorted (key : RChunk → ℚ) (l : List RChunk) :
    List.Sorted (fun a b => key b ≤ key a) (sortDescBy key l) := by
  haveI : IsTotal RChunk (fun a b => key b ≤ key a) := ⟨fun a b => le_total (key b) (key a)⟩
  haveI : IsTrans RChunk (fun a b => key b ≤ key a) := ⟨fun _ _ _ h1 h2 => le_trans h2 h1⟩
  exact List.sorted_insertionSort _ l

theorem search_fromStore {store : List RChunk} {sim : String → RChunk → ℚ}
    {q novel_id : String} {top_k : ℕ} :
    ∀ c ∈ search store sim q novel_id top_k, fromStore store novel_id c := by
  intro c hc
  unfold search at hc
  dsimp only at hc
  split_ifs at hc
  · cases hc
  · have h1 := List.mem_of_mem_take hc
    rw [mem_sortDescBy] at h1
    obtain ⟨sc, hsc, rfl⟩ := List.mem_map.mp h1
    have hn : sc.novel_id = novel_id := by
      have := List.of_mem_filter hsc
      exact of_decide_eq_true this
    exact ⟨sc, List.mem_of_mem_filter hsc, hn, rfl⟩

theorem upsert_mem {acc : List RChunk} {r x : RChunk} (h : x ∈ upsert acc r) :
    x ∈ acc ∨ x = r := by
  unfold upsert at h
  rcases hf : acc.find? (fun y => decide (y.novel_id = r.novel_id ∧ y.chunk_id = r.chunk_id))
    with _ | ex
  · rw [hf] at h
    rcases List.mem_append.mp h with h | h
    · exact Or.inl h
    · exact Or.inr (List.mem_singleton.mp h)
  · rw [hf] at h
    dsimp only at h
    split_ifs at h
    · rcases List.mem_append.mp h with h | h
      · exact Or.inl (List.mem_of_mem_erase h)
      · exact Or.inr (List.mem_singleton.mp h)
    · exact Or.inl h

theorem foldl_upsert_pred {P : RChunk → Prop} :
    ∀ (rs acc : List RChunk), (∀ x ∈ acc, P x) → (∀ r ∈ rs, P r) →
      ∀ x ∈ rs.foldl upsert acc, P x := by
  intro rs
  induction rs with
  | nil => exact fun acc hacc _ => hacc
  | cons r rs ih =>
    intro acc hacc hrs x hx
    refine ih (upsert acc r) ?_ (fun y hy => hrs y (List.mem_cons_of_mem r hy)) x hx
    intro y hy
    rcases upsert_mem hy with h | h2
    · exact hacc y h
    · exact h2 ▸ hrs r (List.mem_cons_self r rs)

theorem multi_query_fromStore {store : List RChunk} {sim : String → RChunk → ℚ}
    {queries : List String} {novel_id : String} {k : ℕ} :
    ∀ c ∈ multi_query_search store sim queries novel_id k,
      fromStore store novel_id c := by
  intro c hc
  unfold multi_query_search at hc
  rw [mem_sortDescBy] at hc
  revert hc
  suffices h : ∀ (qs : List String) (acc : List RChunk),
      (∀ x ∈ acc, fromStore store novel_id x) →
      ∀ x ∈ qs.foldl (fun acc q => (search store sim q novel_id k).foldl upsert acc) acc,
        fromStore store novel_id x by
    exact fun hc => h queries [] (fun x hx => absurd hx (List.not_mem_nil x)) c hc
  intro qs
  induction qs with
  | nil => exact fun acc hacc => hacc
  | cons q qs ih =>
    intro acc hacc
    exact ih _ (foldl_upsert_pred _ acc hacc (fun r hr => search_fromStore r hr))

theorem retrieve_for_backstory_fromStore {store : List RChunk}
    {sim : String → RChunk → ℚ} {backstory novel_id : String} {top_k : ℕ} :
    ∀ c ∈ retrieve_for_backstory store sim backstory novel_id top_k,
      fromStore store novel_id c := by
  intro c hc
  unfold retrieve_for_backstory score_evidence_quality at hc
  have h1 := List.mem_of_mem_take hc
  rw [mem_sortDescBy] at h1
  obtain ⟨c0, hc0, rfl⟩ := List.mem_map.mp h1
  obtain ⟨sc, hsc, hn, hid⟩ := multi_query_fromStore c0 hc0
  exact ⟨sc, hsc, hn, hid⟩

theorem filter_mention_spec {chunks : List RChunk} {character_name : String} :
    ∀ c ∈ filter_by_character_mention chunks character_name,
      pyIn (lowerStr character_name) (lowerStr c.text) = true ∨
      ∃ t ∈ pySplitWS character_name, 2 < t.length ∧
        pyIn (lowerStr t) (lowerStr c.text) = true := by
  intro c hc
  unfold filter_by_character_mention at hc
  dsimp only at hc
  obtain ⟨a, ha, hfa⟩ := List.mem_filterMap.mp hc
  by_cases hfull : pyIn (lowerStr character_name) (lowerStr a.text) = true
  · rw [if_pos hfull] at hfa
    obtain rfl : ({ a with match_type := some "full_name" } : RChunk) = c :=
      Option.some.inj hfa
    exact Or.inl hfull
  · rw [if_neg hfull] at hfa
    rcases hft : (if (((pySplitWS character_name).filter fun t =>
          decide (2 < t.length)).map lowerStr) = []
        then [lowerStr character_name]
        else ((pySplitWS character_name).filter fun t =>
          decide (2 < t.length)).map lowerStr).find?
        (fun t => pyIn t (lowerStr a.text)) with _ | t
    · rw [hft] at hfa
      cases hfa
    · rw [hft] at hfa
      obtain rfl : ({ a with match_type := some ("partial_" ++ t) } : RChunk) = c :=
        Option.some.inj hfa
      have htmem := List.mem_of_find?_eq_some hft
      have htp := List.find?_some hft
      split_ifs at htmem with hbase
      · obtain rfl : t = lowerStr character_name := List.mem_singleton.mp htmem
        exact Or.inl htp
      · obtain ⟨t0, ht0, rfl⟩ := List.mem_map.mp htmem
        have hlen := List.of_mem_filter ht0
        refine Or.inr ⟨t0, List.mem_of_mem_filter ht0, of_decide_eq_true hlen, htp⟩

/-- C4.  Strict character attribution: every chunk returned by
`retrieve_with_character_focus` contains (case-insensitively) the full
character name or a name token longer than 2 characters — so a chunk
mentioning only another character is never returned — and the result never
exceeds the strictly filtered set (no fallback to unfiltered chunks when
fewer than 3 survive). -/
theorem C4_strict_character_attribution (store : List RChunk)
    (sim : String → RChunk → ℚ) (backstory character_name novel_id : String)
    (top_k : ℕ) :
    (∀ c ∈ retrieve_with_character_focus store sim backstory character_name
        novel_id top_k,
      pyIn (lowerStr character_name) (lowerStr c.text) = true ∨
      ∃ t ∈ pySplitWS character_name, 2 < t.length ∧
        pyIn (lowerStr t) (lowerStr c.text) = true) ∧
    (retrieve_with_character_focus store sim backstory character_name novel_id
        top_k).length ≤
      (filter_by_character_mention
        (dedupByChunkId (multi_query_search store sim
          ((decompose_backstory backstory).map fun cl => character_name ++ " " ++ cl)
          novel_id
          (max 5 ((top_k * 3) /
            ((decompose_backstory backstory).map fun cl =>
              character_name ++ " " ++ cl).length))) [])
        character_name).length := by
  constructor
  · intro c hc
    unfold retrieve_with_character_focus score_evidence_quality at hc
    have h1 := List.mem_of_mem_take hc
    rw [mem_sortDescBy] at h1
    obtain ⟨c0, hc0, rfl⟩ := List.mem_map.mp h1
    exact filter_mention_spec c0 hc0
  · unfold retrieve_with_character_focus score_evidence_quality
    calc (List.take top_k _).length ≤ _ := (List.length_take _ _).le.trans (min_le_right _ _)
      _ = _ := ((sortDescBy_perm _ _).length_eq.trans (List.length_map _ _))

/-- Witness for C4: in a two-chunk pool where only chunk 1 mentions Thalcave
and chunk 2 mentions only Tom, the Thalcave chunk is returned and satisfies
the mention property (the Tom-only chunk cannot appear, by the theorem). -/
theorem C4_witness :
    c4_result_chunk ∈ retrieve_with_character_focus c4_store c4_sim
      "climbed the mountains" "Thalcave" "novel1" 3 ∧
    (pyIn (lowerStr "Thalcave") (lowerStr c4_result_chunk.text) = true ∨
      ∃ t ∈ pySplitWS "Thalcave", 2 < t.length ∧
        pyIn (lowerStr t) (lowerStr c4_result_chunk.text) = true) :=
  ⟨by with_unfolding_all decide,
   (C4_strict_character_attribution c4_store c4_sim "climbed the mountains"
     "Thalcave" "novel1" 3).1 c4_result_chunk (by with_unfolding_all decide)⟩

theorem pyMaxNat_eq_some_of_mem {x : ℕ} {l : List ℕ} (h : x ∈ l) :
    ∃ m, pyMaxNat l = some m ∧ x ≤ m := by
  cases l with
  | nil => cases h
  | cons y ys =>
    have hm : pyMaxNat (y :: ys) = some (ys.foldl max y) := rfl
    exact ⟨ys.foldl max y, hm, pyMaxNat_le hm x h⟩

/-- C6, counterexample.  For a novel with zero chunks in the store,
`retrieve_temporal_evidence` does not return a smaller result: the `max()`
over the empty chunk-id sequence raises `ValueError` (modelled as the error
branch), so the claim's "never raise … including a novel_id with zero
chunks" is false. -/
theorem C6_counterexample :
    retrieve_temporal_evidence c6_store constSim "abc" "B" 3 =
      .error "ValueError: max() arg is an empty sequence" := by
  with_unfolding_all rfl

/-- C6, amended.  When fewer chunks are available than requested the
retrieval layer returns the smaller set instead of erroring: character
filtering never grows its input, `search` returns at most `top_k` chunks
(and the empty list — not an error — for an unknown novel), and
`retrieve_temporal_evidence` succeeds with buckets of at most `top_k / 3`
chunks provided the store holds at least one chunk of the novel with a
nonzero chunk id.  (For a novel with zero chunks it raises, per the
counterexample; a lone chunk id 0 likewise divides by zero.) -/
theorem C6_smaller_sets_not_errors (store : List RChunk)
    (sim : String → RChunk → ℚ) (chunks : List RChunk)
    (character_name q backstory novel_id : String) (top_k : ℕ)
    (h : ∃ sc ∈ store, sc.novel_id = novel_id ∧ sc.chunk_id ≠ 0) :
    (filter_by_character_mention chunks character_name).length ≤ chunks.length ∧
    (search store sim q novel_id top_k).length ≤ top_k ∧
    ∃ buckets, retrieve_temporal_evidence store sim backstory novel_id top_k =
        .ok buckets ∧
      buckets.early.length ≤ top_k / 3 ∧ buckets.middle.length ≤ top_k / 3 ∧
      buckets.late.length ≤ top_k / 3 := by
  refine ⟨List.length_filterMap_le _ _, ?_, ?_⟩
  · unfold search
    dsimp only
    split_ifs
    · simp
    · exact List.length_take_le _ _
  · obtain ⟨sc, hsc, hn, hid⟩ := h
    have hmem : sc.chunk_id ∈
        (store.filter (fun c => decide (c.novel_id = novel_id))).map RChunk.chunk_id :=
      List.mem_map_of_mem _ (List.mem_filter.mpr ⟨hsc, by simp [hn]⟩)
    obtain ⟨m, hm, hle⟩ := pyMaxNat_eq_some_of_mem hmem
    have hm0 : ¬ (m = 0 ∧
        retrieve_for_backstory store sim backstory novel_id (top_k * 2) ≠ []) := by
      rintro ⟨rfl, -⟩
      omega
    unfold retrieve_temporal_evidence
    rw [hm]
    dsimp only
    rw [if_neg hm0]
    exact ⟨_, rfl, List.length_take_le _ _, List.length_take_le _ _,
      List.length_take_le _ _⟩

/-- Witness for the amended C6 at a concrete store (novel "n" has four
chunks, ids up to 10) with requests larger than what is available. -/
theorem C6_witness :
    (filter_by_character_mention [] "Ann").length ≤ ([] : List RChunk).length ∧
    (search c8_store constSim "q" "n" 9).length ≤ 9 ∧
    ∃ buckets, retrieve_temporal_evidence c8_store constSim "tale" "n" 9 =
        .ok buckets ∧
      buckets.early.length ≤ 9 / 3 ∧ buckets.middle.length ≤ 9 / 3 ∧
      buckets.late.length ≤ 9 / 3 :=
  C6_smaller_sets_not_errors c8_store constSim [] "Ann" "q" "tale" "n" 9
    (by with_unfolding_all decide)

/-- C7.  Quality scoring: whenever every input similarity is non-negative
(the embedding-similarity domain documented by the source), every chunk
returned by `_score_evidence_quality` carries the quality score
`similarity + 0.15·(overlap fraction of backstory words, lower-cased tokens
longer than 3 characters, found among the chunk's words) + 0.05 for chunks of
more than 30 words`, clamped to [0, 1]; and the returned list is sorted by
quality score in descending order. -/
theorem C7_quality_scoring (chunks : List RChunk) (backstory : String)
    (hsim : ∀ c ∈ chunks, 0 ≤ c.similarity) :
    (∀ c ∈ score_evidence_quality chunks backstory,
      c.quality_score = min 1 (max 0 (c.similarity +
        (interCount (wordsGt3 backstory) (wordsGt3 c.text) : ℚ) /
          (max (wordsGt3 backstory).length 1 : ℚ) * 0.15 +
        (if 30 < (pySplitWS c.text).length then 0.05 else 0)))) ∧
    List.Sorted (fun a b => b.quality_score ≤ a.quality_score)
      (score_evidence_quality chunks backstory) := by
  constructor
  · intro c hc
    unfold score_evidence_quality at hc
    rw [mem_sortDescBy] at hc
    obtain ⟨c0, hc0, rfl⟩ := List.mem_map.mp hc
    have h0 := hsim c0 hc0
    have hfrac : (0 : ℚ) ≤ (interCount (wordsGt3 backstory) (wordsGt3 c0.text) : ℚ) /
        (max (wordsGt3 backstory).length 1 : ℚ) * 0.15 := by
      apply mul_nonneg _ (by norm_num)
      apply div_nonneg (by positivity)
      exact_mod_cast Nat.zero_le _
    unfold scoreChunk
    dsimp only
    split_ifs with h30
    · have hx : (0 : ℚ) ≤ c0.similarity +
          (interCount (wordsGt3 backstory) (wordsGt3 c0.text) : ℚ) /
            (max (wordsGt3 backstory).length 1 : ℚ) * 0.15 + 0.05 := by linarith
      rw [max_eq_right hx]
    · have hx : (0 : ℚ) ≤ c0.similarity +
          (interCount (wordsGt3 backstory) (wordsGt3 c0.text) : ℚ) /
            (max (wordsGt3 backstory).length 1 : ℚ) * 0.15 + 0 := by linarith
      rw [max_eq_right hx]
      norm_num
  · unfold score_evidence_quality
    exact sortDescBy_sorted _ _

/-- Witness for C7 at two concrete chunks with non-negative similarities. -/
theorem C7_witness :
    (∀ c ∈ score_evidence_quality c7_chunks "John grew up in poverty in London",
      c.quality_score = min 1 (max 0 (c.similarity +
        (interCount (wordsGt3 "John grew up in poverty in London") (wordsGt3 c.text) : ℚ) /
          (max (wordsGt3 "John grew up in poverty in London").length 1 : ℚ) * 0.15 +
        (if 30 < (pySplitWS c.text).length then 0.05 else 0)))) ∧
    List.Sorted (fun a b => b.quality_score ≤ a.quality_score)
      (score_evidence_quality c7_chunks "John grew up in poverty in London") :=
  C7_quality_scoring c7_chunks "John grew up in poverty in London"
    (by with_unfolding_all decide)

/-- C8.  Temporal bucketing: whenever `retrieve_temporal_evidence` succeeds,
each bucketed chunk sits in exactly the third of the narrative its relative
position `chunk_id / max_chunk_id` prescribes — early [0, 0.33), middle
[0.33, 0.66), late [0.66, 1] — and every bucket holds at most
`top_k / 3` (integer division) chunks. -/
theorem C8_temporal_bucket_partition (store : List RChunk)
    (sim : String → RChunk → ℚ) (backstory novel_id : String) (top_k : ℕ)
    (buckets : TemporalEvidence)
    (h : retrieve_temporal_evidence store sim backstory novel_id top_k = .ok buckets) :
    ∃ m, pyMaxNat ((store.filter fun c => decide (c.novel_id = novel_id)).map
        RChunk.chunk_id) = some m ∧
      (∀ c ∈ buckets.early, (c.chunk_id : ℚ) / (m : ℚ) < 0.33) ∧
      (∀ c ∈ buckets.middle, 0.33 ≤ (c.chunk_id : ℚ) / (m : ℚ) ∧
        (c.chunk_id : ℚ) / (m : ℚ) < 0.66) ∧
      (∀ c ∈ buckets.late, 0.66 ≤ (c.chunk_id : ℚ) / (m : ℚ) ∧
        (c.chunk_id : ℚ) / (m : ℚ) ≤ 1) ∧
      buckets.early.length ≤ top_k / 3 ∧ buckets.middle.length ≤ top_k / 3 ∧
      buckets.late.length ≤ top_k / 3 := by
  unfold retrieve_temporal_evidence at h
  rcases hm : pyMaxNat ((store.filter fun c => decide (c.novel_id = novel_id)).map
      RChunk.chunk_id) with _ | m
  · rw [hm] at h
    cases h
  · rw [hm] at h
    dsimp only at h
    split_ifs at h with hz
    · injection h with h2
      subst h2
      refine ⟨m, hm, ?_, ?_, ?_, List.length_take_le _ _, List.length_take_le _ _,
        List.length_take_le _ _⟩
      · intro c hc
        dsimp only at hc
        have h1 := List.mem_of_mem_take hc
        have h2 := List.of_mem_filter h1
        exact of_decide_eq_true h2
      · intro c hc
        dsimp only at hc
        have hcond := List.of_mem_filter (List.mem_of_mem_take hc)
        simp only [Bool.and_eq_true, Bool.not_eq_true', decide_eq_true_eq,
          decide_eq_false_iff_not] at hcond
        exact ⟨le_of_not_lt hcond.1, hcond.2⟩
      · intro c hc
        dsimp only at hc
        have hcond := List.of_mem_filter (List.mem_of_mem_take hc)
        simp only [Bool.and_eq_true, Bool.not_eq_true', decide_eq_true_eq,
          decide_eq_false_iff_not] at hcond
        refine ⟨le_of_not_lt hcond.2, ?_⟩
        have hmem := List.mem_of_mem_filter (List.mem_of_mem_take hc)
        obtain ⟨sc, hsc, hn, hid⟩ := retrieve_for_backstory_fromStore c hmem
        have hscm : sc.chunk_id ≤ m := by
          have h1 : sc.chunk_id ∈ (store.filter fun c =>
              decide (c.novel_id = novel_id)).map RChunk.chunk_id :=
            List.mem_map_of_mem _ (List.mem_filter.mpr ⟨hsc, by simp [hn]⟩)
          exact pyMaxNat_le hm _ h1
        have hne : retrieve_for_backstory store sim backstory novel_id (top_k * 2) ≠ [] := by
          intro he
          rw [he] at hmem
          cases hmem
        have hm0 : m ≠ 0 := fun h0 => hz ⟨h0, hne⟩
        have hmq : (0 : ℚ) < (m : ℚ) := by
          exact_mod_cast Nat.pos_of_ne_zero hm0
        rw [div_le_one hmq]
        have : c.chunk_id ≤ m := hid ▸ hscm
        exact_mod_cast this

/-- Witness for C8: a four-chunk novel (maximum id 10) bucketed at top_k 9
produces buckets at positions 0.1 / 0.5 / {0.9, 1.0} each within its third
and within the cap of 3. -/
theorem C8_witness :
    retrieve_temporal_evidence c8_store constSim "tale" "n" 9 = .ok c8_buckets ∧
    ∃ m, pyMaxNat ((c8_store.filter fun c => decide (c.novel_id = "n")).map
        RChunk.chunk_id) = some m ∧
      (∀ c ∈ c8_buckets.early, (c.chunk_id : ℚ) / (m : ℚ) < 0.33) ∧
      (∀ c ∈ c8_buckets.middle, 0.33 ≤ (c.chunk_id : ℚ) / (m : ℚ) ∧
        (c.chunk_id : ℚ) / (m : ℚ) < 0.66) ∧
      (∀ c ∈ c8_buckets.late, 0.66 ≤ (c.chunk_id : ℚ) / (m : ℚ) ∧
        (c.chunk_id : ℚ) / (m : ℚ) ≤ 1) ∧
      c8_buckets.early.length ≤ 9 / 3 ∧ c8_buckets.middle.length ≤ 9 / 3 ∧
      c8_buckets.late.length ≤ 9 / 3 :=
  ⟨by with_unfolding_all rfl,
   C8_temporal_bucket_partition c8_store constSim "tale" "n" 9 c8_buckets
     (by with_unfolding_all rfl)⟩
